import Mathlib

/-!
# Verification of the WorkReflect live-session coordinator

Shallow embedding of `src/routes/roomRoutes.js`:

* `generateToken04` — ZEGOCLOUD Token04 generation (TokenCodec in the spec);
* the in-memory `activeRooms` map and the four route handlers
  (SessionRegistry / SessionCoordinator in the spec).

JavaScript numbers that the code treats as integers are modelled as `Int`
(or `Nat` where they are manifestly non-negative); `Math.random()` outcomes
are modelled as rationals in `[0, 1)` or as pre-drawn index sequences;
`Buffer`s are `List Nat` with every element `< 256`.  The AES primitive is
an external collaborator (the spec's "cryptographic primitive"), so the
token builder is parametrised by an arbitrary encryption function
`enc : String → String → String → List Nat` (plaintext, key, iv ↦ cipher
bytes); nothing the claims state depends on its internals.
-/

/-! ## Base64 (model of Node's `Buffer.prototype.toString("base64")`) -/

/-- The standard base64 alphabet. -/
def base64Alphabet : List Char :=
  "ABCDEFGHIJKLMNOPQRSTUVWXYZabcdefghijklmnopqrstuvwxyz0123456789+/".toList

/-- Character for a 6-bit group. -/
def encChar (n : Nat) : Char := base64Alphabet.getD n 'A'

/-- Inverse of `encChar` on values `< 64`. -/
def decChar (c : Char) : Nat := base64Alphabet.indexOf c

/-- Split bytes into 6-bit groups, big-endian within each 3-byte block
(leftover 1 or 2 bytes produce 2 or 3 groups, as base64 does). -/
def toSextets : List Nat → List Nat
  | [] => []
  | [b1] => [b1 / 4, b1 % 4 * 16]
  | [b1, b2] => [b1 / 4, b1 % 4 * 16 + b2 / 16, b2 % 16 * 4]
  | b1 :: b2 :: b3 :: rest =>
      b1 / 4 :: (b1 % 4 * 16 + b2 / 16) :: (b2 % 16 * 4 + b3 / 64) :: b3 % 64 ::
        toSextets rest

/-- Reassemble bytes from 6-bit groups (inverse of `toSextets`). -/
def fromSextets : List Nat → List Nat
  | s1 :: s2 :: s3 :: s4 :: rest =>
      (s1 * 4 + s2 / 16) :: (s2 % 16 * 16 + s3 / 4) :: (s3 % 4 * 64 + s4) ::
        fromSextets rest
  | [s1, s2] => [s1 * 4 + s2 / 16]
  | [s1, s2, s3] => [s1 * 4 + s2 / 16, s2 % 16 * 16 + s3 / 4]
  | _ => []

/-- Base64 padding for a payload of `n` bytes. -/
def base64Pad (n : Nat) : List Char :=
  match n % 3 with
  | 1 => ['=', '=']
  | 2 => ['=']
  | _ => []

/-- `Buffer.toString("base64")`. -/
def base64Encode (bs : List Nat) : String :=
  String.mk ((toSextets bs).map encChar ++ base64Pad bs.length)

/-- `Buffer.from(s, "base64")` (padding-tolerant decoder). -/
def base64Decode (s : String) : List Nat :=
  fromSextets ((s.toList.filter (fun c => c ≠ '=')).map decChar)

/-! ## Big-endian integer fields (models of Node `Buffer` writes/reads) -/

/-- `buf.writeUInt16BE(n)`: the two big-endian bytes of `n % 2^16`. -/
def writeUInt16BE (n : Nat) : List Nat := [n / 256 % 256, n % 256]

/-- `buf.writeBigInt64BE(BigInt v)`: the eight big-endian bytes of the
two's-complement representation of `v`.  (Node throws a `RangeError` for
`v` outside `[-2^63, 2^63)`; the theorems carry that bound as a
hypothesis.) -/
def writeBigInt64BE (v : Int) : List Nat :=
  let n : Nat := (v % 18446744073709551616).toNat
  [n / 72057594037927936 % 256, n / 281474976710656 % 256, n / 1099511627776 % 256,
   n / 4294967296 % 256, n / 16777216 % 256, n / 65536 % 256, n / 256 % 256, n % 256]

/-- Big-endian recombination of a byte list. -/
def readBytesBE (bs : List Nat) : Nat := bs.foldl (fun acc b => acc * 256 + b) 0

/-- `buf.readBigInt64BE(0)`: the first eight bytes as a signed big-endian
64-bit integer. -/
def readInt64BE (bs : List Nat) : Int :=
  let n := readBytesBE (bs.take 8)
  if n < 9223372036854775808 then (n : Int) else (n : Int) - 18446744073709551616

/-! ## IV, nonce and claim serialization (`src/routes/roomRoutes.js` 16–47) -/

/-- The alphabet used by `makeRandomIv`. -/
def ivAlphabet : List Char := "0123456789abcdefghijklmnopqrstuvwxyz".toList

/-- `makeRandomIv()`: sixteen draws from `ivAlphabet`; the random draws
`Math.floor(Math.random() * chars.length)` are supplied as `rand`. -/
def makeRandomIv (rand : Nat → Fin 36) : String :=
  String.mk ((List.range 16).map (fun i => ivAlphabet.getD (rand i).val '0'))

/-- The nonce expression
`Math.ceil((-2147483648 + 4294967295) * Math.random())`, with the
`Math.random()` outcome `r ∈ [0, 1)` supplied as a rational. -/
def makeNonce (r : ℚ) : Int := ⌈((-2147483648 : ℚ) + 4294967295) * r⌉

/-- `Buffer.from(s, "utf8")` for ASCII strings (every string the code packs
into the envelope is ASCII). -/
def utf8Bytes (s : String) : List Nat := s.toList.map Char.toNat

/-- Lowercase hexadecimal digit. -/
def hexDigit (n : Nat) : Char := "0123456789abcdef".toList.getD n '0'

/-- JSON.stringify's escaping of a single character inside a string
literal. -/
def jsonEscapeChar (c : Char) : List Char :=
  if c = '"' then ['\\', '"']
  else if c = '\\' then ['\\', '\\']
  else if c = '\x08' then ['\\', 'b']
  else if c = '\t' then ['\\', 't']
  else if c = '\n' then ['\\', 'n']
  else if c = '\x0c' then ['\\', 'f']
  else if c = '\r' then ['\\', 'r']
  else if c.toNat < 32 then
    ['\\', 'u', '0', '0', hexDigit (c.toNat / 16), hexDigit (c.toNat % 16)]
  else [c]

/-- JSON.stringify of a string value. -/
def jsonString (s : String) : String :=
  "\"" ++ String.mk ((s.toList.map jsonEscapeChar).flatten) ++ "\""

/-- The `tokenInfo` object of `generateToken04` (fields in source insertion
order, which `JSON.stringify` preserves). -/
structure TokenInfo where
  app_id : Int
  user_id : String
  nonce : Int
  ctime : Int
  expire : Int
  payload : String
deriving Repr, DecidableEq

/-- `JSON.stringify(tokenInfo)`: JavaScript serializes the own enumerable
string keys in insertion order, so the field order is exactly
app_id, user_id, nonce, ctime, expire, payload. -/
def serializeTokenInfo (t : TokenInfo) : String :=
  "\x7b\"app_id\":" ++ toString t.app_id ++
  ",\"user_id\":" ++ jsonString t.user_id ++
  ",\"nonce\":" ++ toString t.nonce ++
  ",\"ctime\":" ++ toString t.ctime ++
  ",\"expire\":" ++ toString t.expire ++
  ",\"payload\":" ++ jsonString t.payload ++ "\x7d"

/-- The binary envelope packed at lines 55–64:
`expire(8B int64 BE) ++ ivLen(2B uint16 BE) ++ iv ++ encLen(2B uint16 BE) ++ cipher`. -/
def packEnvelope (expireTime : Int) (ivBuf encryptedBuf : List Nat) : List Nat :=
  writeBigInt64BE expireTime ++ writeUInt16BE ivBuf.length ++ ivBuf ++
    writeUInt16BE encryptedBuf.length ++ encryptedBuf

/-- `generateToken04` (lines 27–67).  Effectful inputs are explicit:
`nowSeconds` is `Math.floor(Date.now() / 1000)`, `nonceRand` the
`Math.random()` outcome used for the nonce, `ivRand` the index draws used
by `makeRandomIv`, and `enc` the AES-256-CBC primitive
(plaintext, key, iv ↦ cipher bytes).  A thrown `Error` is an `Except.error`.
The `typeof` halves of the first two guards are vacuous in this typed
embedding (`appId` is always a number, `userId` always a string); the
truthiness halves reject `0` and `""`.  Note `payload || ""` is the
identity on strings, and nothing ever checks `effectiveTimeInSeconds`. -/
def generateToken04 (enc : String → String → String → List Nat)
    (nowSeconds : Int) (nonceRand : ℚ) (ivRand : Nat → Fin 36)
    (appId : Int) (userId : String) (serverSecret : String)
    (effectiveTimeInSeconds : Int) (payload : String) : Except String String :=
  if appId = 0 then .error "appId must be a number"
  else if userId = "" then .error "userId must be a string"
  else if serverSecret.length ≠ 32 then .error "serverSecret must be 32 chars"
  else
    let createTime := nowSeconds
    let expireTime := createTime + effectiveTimeInSeconds
    let nonce := makeNonce nonceRand
    let tokenInfo : TokenInfo :=
      { app_id := appId, user_id := userId, nonce := nonce,
        ctime := createTime, expire := expireTime, payload := payload }
    let plainText := serializeTokenInfo tokenInfo
    let iv := makeRandomIv ivRand
    let encryptedBuf := enc plainText serverSecret iv
    let ivBuf := utf8Bytes iv
    let buf := packEnvelope expireTime ivBuf encryptedBuf
    .ok ("04" ++ base64Encode buf)

/-- The part of a token string after its two-character version tag. -/
def tokenBody (tok : String) : String := String.mk (tok.toList.drop 2)

/-! ## The in-memory room store and route handlers
(`src/routes/roomRoutes.js` 69–171) -/

/-- A `Session` in the spec: the room object built by the create-room
handler (lines 126–136).  `createdAt` is the `Date` value as Unix
milliseconds. -/
structure Room where
  id : String
  title : String
  type : String
  hostId : String
  hostName : String
  organization : String
  participants : Nat
  createdAt : Int
  live : Bool
deriving Repr, DecidableEq

/-- The module-level `activeRooms = new Map()`, modelled as an
insertion-ordered association list (JavaScript `Map` iterates in insertion
order). -/
abbrev RoomStore := List (String × Room)

/-- `activeRooms.get(k)`. -/
def mapGet (m : RoomStore) (k : String) : Option Room :=
  (m.find? (fun p => p.1 == k)).map (fun p => p.2)

/-- `activeRooms.set(k, v)`: replaces in place if the key is present,
otherwise appends. -/
def mapSet (m : RoomStore) (k : String) (v : Room) : RoomStore :=
  if m.any (fun p => p.1 == k) then m.map (fun p => if p.1 == k then (k, v) else p)
  else m ++ [(k, v)]

/-- `activeRooms.delete(k)`. -/
def mapDelete (m : RoomStore) (k : String) : RoomStore :=
  m.filter (fun p => p.1 != k)

/-- `Array.from(activeRooms.values())`. -/
def mapValues (m : RoomStore) : List Room := m.map (fun p => p.2)

/-- The authenticated caller attached by `authMiddleware`; `plan` may be
absent on the document, hence `Option`. -/
structure User where
  _id : String
  name : String
  organization : String
  plan : Option String
deriving Repr, DecidableEq

/-- JavaScript truthiness test `!x` for an optional string
(`undefined`/`null` and `""` are falsy). -/
def strFalsy : Option String → Bool
  | none => true
  | some s => s == ""

/-- JavaScript truthiness test `!x` for `parseInt`'s result (`NaN`, modelled
`none`, and `0` are falsy). -/
def intFalsy : Option Int → Bool
  | none => true
  | some n => n == 0

/-- The ZEGOCLOUD environment configuration: `parseInt(process.env.ZEGO_APP_ID, 10)`
(`none` models `NaN` from an unset variable) and `process.env.ZEGO_SERVER_SECRET`. -/
structure ZegoConfig where
  appId : Option Int
  serverSecret : Option String

/-- The JSON body sent by the `/token` handler on success (the demo
response has no `isHost` member; the configured response has no `demo`
member; `Option` models member presence). -/
structure TokenResponseBody where
  token : String
  userId : String
  userName : String
  roomId : String
  appId : Int
  isHost : Option Bool
  demo : Option Bool
deriving Repr, DecidableEq

/-- The host check at lines 104–106: `activeRooms.get(roomId)` followed by
`room ? room.hostId === userId : false`. -/
def isHostCheck (store : RoomStore) (roomId userId : String) : Bool :=
  match mapGet store roomId with
  | some room => room.hostId == userId
  | none => false

/-- Outcome of `POST /api/rooms/token` (403 / 400 / 200 / 500). -/
inductive TokenResult where
  | forbidden (error message : String)
  | badRequest (error : String)
  | ok (body : TokenResponseBody)
  | serverError (message : String)
deriving Repr, DecidableEq

/-- The `POST /api/rooms/token` handler (lines 73–113).  Checks run in
source order: the plan gate, then the `roomId` presence check, then the
env-configuration check (demo mode), then `generateToken04` with the fixed
lifetime `3600` and the host lookup in `activeRooms`. -/
def tokenHandler (enc : String → String → String → List Nat)
    (nowSeconds : Int) (nonceRand : ℚ) (ivRand : Nat → Fin 36)
    (store : RoomStore) (cfg : ZegoConfig) (user : User)
    (roomIdParam : Option String) : TokenResult :=
  if user.plan == some "free" || strFalsy user.plan then
    .forbidden "premium_required" "Live Rooms require a Pro subscription."
  else if strFalsy roomIdParam then .badRequest "roomId is required"
  else
    let roomId := roomIdParam.getD ""
    if intFalsy cfg.appId || strFalsy cfg.serverSecret then
      .ok { token := "ZEGO_NOT_CONFIGURED", userId := user._id, userName := user.name,
            roomId := roomId, appId := 0, isHost := none, demo := some true }
    else
      let appId := cfg.appId.getD 0
      let serverSecret := cfg.serverSecret.getD ""
      let userId := user._id
      match generateToken04 enc nowSeconds nonceRand ivRand appId userId serverSecret
          3600 "" with
      | .error e => .serverError e
      | .ok token =>
          let isHost := isHostCheck store roomId userId
          .ok { token := token, userId := userId, userName := user.name,
                roomId := roomId, appId := appId, isHost := some isHost, demo := none }

/-- Outcome of `POST /api/rooms/create-room` (403 / 400 / 200). -/
inductive CreateResult where
  | forbidden (error : String)
  | badRequest (error : String)
  | created (room : Room)
deriving Repr, DecidableEq

/-- The `POST /api/rooms/create-room` handler (lines 116–146).  `nowMs` is
`Date.now()` and `randSuffix` is `Math.random().toString(36).slice(2, 7)`.
The body destructuring `{ title, type = "audio" }` substitutes `"audio"`
only when `type` is absent (`undefined`); any supplied string is kept
verbatim, unvalidated. -/
def createRoomHandler (store : RoomStore) (user : User) (title : Option String)
    (roomType : Option String) (nowMs : Int) (randSuffix : String) :
    CreateResult × RoomStore :=
  if user.plan == some "free" || strFalsy user.plan then
    (.forbidden "premium_required", store)
  else if strFalsy title then (.badRequest "title required", store)
  else
    let roomId := "room_" ++ toString nowMs ++ "_" ++ randSuffix
    let room : Room :=
      { id := roomId, title := title.getD "", type := roomType.getD "audio",
        hostId := user._id, hostName := user.name,
        organization := user.organization, participants := 0,
        createdAt := nowMs, live := true }
    (.created room, mapSet store roomId room)

/-- The `GET /api/rooms/list` handler (lines 149–159), parametrised by the
querying organization id. -/
def listRooms (store : RoomStore) (orgId : String) : List Room :=
  (mapValues store).filter (fun r => r.organization == orgId && r.live)

/-- Outcome of `DELETE /api/rooms/close/:roomId` (404 / 403 / 200). -/
inductive CloseResult where
  | notFound (error : String)
  | forbidden (error : String)
  | closed (message : String)
deriving Repr, DecidableEq

/-- The `DELETE /api/rooms/close/:roomId` handler (lines 162–171). -/
def closeRoomHandler (store : RoomStore) (roomId : String) (requesterId : String) :
    CloseResult × RoomStore :=
  match mapGet store roomId with
  | none => (.notFound "Room not found", store)
  | some room =>
      if room.hostId ≠ requesterId then
        (.forbidden "Only the host can close the room", store)
      else (.closed "Room closed", mapDelete store roomId)

/-- Concrete sample data used by the witness theorems. -/
def sampleRoom : Room :=
  { id := "r1", title := "t", type := "audio", hostId := "h1", hostName := "H",
    organization := "o1", participants := 0, createdAt := 0, live := true }

/-- Concrete entitled caller used by the witness theorems. -/
def sampleUser : User :=
  { _id := "u1", name := "N", organization := "o1", plan := some "pro" }

/-! ## Helper lemmas shared by the claim theorems -/

theorem fromSextets_toSextets (bs : List Nat) (h : ∀ b ∈ bs, b < 256) :
    fromSextets (toSextets bs) = bs := by
  induction bs using toSextets.induct with
  | case1 => rfl
  | case2 b1 =>
      have h1 : b1 < 256 := h b1 (by simp)
      simp only [toSextets, fromSextets, List.cons.injEq, and_true]
      omega
  | case3 b1 b2 =>
      have h1 : b1 < 256 := h b1 (by simp)
      have h2 : b2 < 256 := h b2 (by simp)
      simp only [toSextets, fromSextets, List.cons.injEq, and_true]
      omega
  | case4 b1 b2 b3 rest ih =>
      have h1 : b1 < 256 := h b1 (by simp)
      have h2 : b2 < 256 := h b2 (by simp)
      have h3 : b3 < 256 := h b3 (by simp)
      have hrest : ∀ b ∈ rest, b < 256 := fun b hb => h b (by simp [hb])
      simp only [toSextets, fromSextets, List.cons.injEq]
      exact ⟨by omega, by omega, by omega, ih hrest⟩

theorem toSextets_lt (bs : List Nat) (h : ∀ b ∈ bs, b < 256) :
    ∀ s ∈ toSextets bs, s < 64 := by
  induction bs using toSextets.induct with
  | case1 => simp [toSextets]
  | case2 b1 =>
      have h1 : b1 < 256 := h b1 (by simp)
      simp only [toSextets, List.mem_cons, List.not_mem_nil, or_false]
      rintro s (rfl | rfl) <;> omega
  | case3 b1 b2 =>
      have h1 : b1 < 256 := h b1 (by simp)
      have h2 : b2 < 256 := h b2 (by simp)
      simp only [toSextets, List.mem_cons, List.not_mem_nil, or_false]
      rintro s (rfl | rfl | rfl) <;> omega
  | case4 b1 b2 b3 rest ih =>
      have h1 : b1 < 256 := h b1 (by simp)
      have h2 : b2 < 256 := h b2 (by simp)
      have h3 : b3 < 256 := h b3 (by simp)
      have hrest : ∀ b ∈ rest, b < 256 := fun b hb => h b (by simp [hb])
      simp only [toSextets, List.mem_cons]
      rintro s (rfl | rfl | rfl | rfl | hs)
      · omega
      · omega
      · omega
      · omega
      · exact ih hrest s hs

theorem decChar_encChar (n : Nat) (h : n < 64) : decChar (encChar n) = n := by
  interval_cases n <;> rfl

theorem base64Alphabet_no_pad : ∀ c ∈ base64Alphabet, c ≠ '=' := by decide

theorem encChar_ne_eq (n : Nat) : encChar n ≠ '=' := by
  unfold encChar
  rcases Nat.lt_or_ge n base64Alphabet.length with hlt | hge
  · rw [List.getD_eq_getElem _ _ hlt]
    exact base64Alphabet_no_pad _ (List.getElem_mem hlt)
  · rw [List.getD_eq_default _ _ hge]
    decide

theorem base64_roundtrip (bs : List Nat) (h : ∀ b ∈ bs, b < 256) :
    base64Decode (base64Encode bs) = bs := by
  unfold base64Decode base64Encode
  have hdata : (String.mk ((toSextets bs).map encChar ++ base64Pad bs.length)).toList
      = (toSextets bs).map encChar ++ base64Pad bs.length := rfl
  rw [hdata, List.filter_append]
  have hpad : (base64Pad bs.length).filter (fun c => c ≠ '=') = [] := by
    unfold base64Pad
    rcases bs.length % 3 with _ | _ | _ | k <;> simp
  have henc : ((toSextets bs).map encChar).filter (fun c => c ≠ '=') =
      (toSextets bs).map encChar := by
    rw [List.filter_eq_self]
    intro c hc
    obtain ⟨s, _, rfl⟩ := List.mem_map.mp hc
    simpa using encChar_ne_eq s
  rw [hpad, henc, List.append_nil, List.map_map]
  have hmap : (toSextets bs).map (decChar ∘ encChar) = (toSextets bs).map id :=
    List.map_congr_left fun s hs => decChar_encChar s (toSextets_lt bs h s hs)
  rw [hmap, List.map_id]
  exact fromSextets_toSextets bs h

theorem writeBigInt64BE_lt (v : Int) : ∀ b ∈ writeBigInt64BE v, b < 256 := by
  simp only [writeBigInt64BE, List.mem_cons, List.not_mem_nil, or_false]
  rintro b (rfl | rfl | rfl | rfl | rfl | rfl | rfl | rfl) <;> omega

theorem writeUInt16BE_lt (n : Nat) : ∀ b ∈ writeUInt16BE n, b < 256 := by
  simp only [writeUInt16BE, List.mem_cons, List.not_mem_nil, or_false]
  rintro b (rfl | rfl) <;> omega

theorem readInt64BE_writeBigInt64BE (v : Int) (rest : List Nat)
    (h0 : 0 ≤ v) (h1 : v < 9223372036854775808) :
    readInt64BE (writeBigInt64BE v ++ rest) = v := by
  have hmod : v % 18446744073709551616 = v := Int.emod_eq_of_lt h0 (by omega)
  simp only [writeBigInt64BE, readInt64BE, readBytesBE, hmod, List.cons_append,
    List.nil_append, List.take, List.foldl]
  have hv : (v.toNat : Int) = v := Int.toNat_of_nonneg h0
  have hn : v.toNat < 9223372036854775808 := by omega
  have harith :
      (((((((v.toNat / 72057594037927936 % 256 * 256 + v.toNat / 281474976710656 % 256) *
        256 + v.toNat / 1099511627776 % 256) * 256 + v.toNat / 4294967296 % 256) * 256 +
        v.toNat / 16777216 % 256) * 256 + v.toNat / 65536 % 256) * 256 +
        v.toNat / 256 % 256) * 256 + v.toNat % 256) = v.toNat := by
    omega
  rw [if_pos]
  · omega
  · omega

theorem string_toList_append (s t : String) : (s ++ t).toList = s.toList ++ t.toList := rfl

theorem tokenBody_append04 (s : String) : tokenBody ("04" ++ s) = s := rfl

theorem packEnvelope_lt (v : Int) (ivBuf cipher : List Nat)
    (hiv : ∀ b ∈ ivBuf, b < 256) (hc : ∀ b ∈ cipher, b < 256) :
    ∀ b ∈ packEnvelope v ivBuf cipher, b < 256 := by
  intro b hb
  simp only [packEnvelope, List.append_assoc, List.mem_append] at hb
  rcases hb with hb | hb | hb | hb | hb
  · exact writeBigInt64BE_lt v b hb
  · exact writeUInt16BE_lt _ b hb
  · exact hiv b hb
  · exact writeUInt16BE_lt _ b hb
  · exact hc b hb

theorem packEnvelope_length (v : Int) (ivBuf cipher : List Nat) :
    (packEnvelope v ivBuf cipher).length = 8 + 2 + ivBuf.length + 2 + cipher.length := by
  simp only [packEnvelope, writeBigInt64BE, writeUInt16BE, List.length_append,
    List.length_cons, List.length_nil]

theorem readInt64BE_packEnvelope (v : Int) (ivBuf cipher : List Nat)
    (h0 : 0 ≤ v) (h1 : v < 9223372036854775808) :
    readInt64BE (packEnvelope v ivBuf cipher) = v := by
  unfold packEnvelope
  simp only [List.append_assoc]
  exact readInt64BE_writeBigInt64BE v _ h0 h1

theorem makeRandomIv_toList (rand : Nat → Fin 36) :
    (makeRandomIv rand).toList =
      (List.range 16).map (fun i => ivAlphabet.getD (rand i).val '0') := rfl

theorem makeRandomIv_length (rand : Nat → Fin 36) :
    (makeRandomIv rand).toList.length = 16 := by
  rw [makeRandomIv_toList]
  simp

theorem ivAlphabet_length : ivAlphabet.length = 36 := by decide

theorem makeRandomIv_mem (rand : Nat → Fin 36) :
    ∀ c ∈ (makeRandomIv rand).toList, c ∈ ivAlphabet := by
  intro c hc
  rw [makeRandomIv_toList] at hc
  obtain ⟨i, _, rfl⟩ := List.mem_map.mp hc
  have hi : (rand i).val < ivAlphabet.length := by
    rw [ivAlphabet_length]; exact (rand i).isLt
  rw [List.getD_eq_getElem _ _ hi]
  exact List.getElem_mem hi

theorem ivAlphabet_byte_lt : ∀ c ∈ ivAlphabet, c.toNat < 256 := by decide

theorem utf8Bytes_makeRandomIv_lt (rand : Nat → Fin 36) :
    ∀ b ∈ utf8Bytes (makeRandomIv rand), b < 256 := by
  intro b hb
  obtain ⟨c, hc, rfl⟩ := List.mem_map.mp hb
  exact ivAlphabet_byte_lt c (makeRandomIv_mem rand c hc)

theorem utf8Bytes_makeRandomIv_length (rand : Nat → Fin 36) :
    (utf8Bytes (makeRandomIv rand)).length = 16 := by
  unfold utf8Bytes
  rw [List.length_map]
  exact makeRandomIv_length rand

/-- When the three validation guards pass, `generateToken04` returns the
version-tagged base64 envelope whose cipher section is `enc` applied to the
serialized claims, keyed by the secret, with the freshly drawn IV. -/
theorem generateToken04_ok (enc : String → String → String → List Nat)
    (nowSeconds : Int) (nonceRand : ℚ) (ivRand : Nat → Fin 36)
    (appId : Int) (userId serverSecret : String)
    (effectiveTimeInSeconds : Int) (payload : String)
    (hApp : appId ≠ 0) (hUser : userId ≠ "") (hSecret : serverSecret.length = 32) :
    generateToken04 enc nowSeconds nonceRand ivRand appId userId serverSecret
        effectiveTimeInSeconds payload =
      .ok ("04" ++ base64Encode (packEnvelope (nowSeconds + effectiveTimeInSeconds)
        (utf8Bytes (makeRandomIv ivRand))
        (enc (serializeTokenInfo
          { app_id := appId, user_id := userId, nonce := makeNonce nonceRand,
            ctime := nowSeconds, expire := nowSeconds + effectiveTimeInSeconds,
            payload := payload })
          serverSecret (makeRandomIv ivRand)))) := by
  unfold generateToken04
  rw [if_neg hApp, if_neg hUser, if_neg (by simp [hSecret])]

theorem mapGet_mapDelete_self (m : RoomStore) (k : String) :
    mapGet (mapDelete m k) k = none := by
  induction m with
  | nil => rfl
  | cons p m ih =>
      by_cases hpk : (p.1 != k) = true
      · have hne : (p.1 == k) = false := by
          cases h2 : p.1 == k
          · rfl
          · simp [bne, h2] at hpk
        have hstep : mapDelete (p :: m) k = p :: mapDelete m k := by
          simp [mapDelete, List.filter_cons, hpk]
        rw [hstep]
        simp only [mapGet] at ih ⊢
        rw [List.find?_cons_of_neg _ (by simp [hne])]
        exact ih
      · have hstep : mapDelete (p :: m) k = mapDelete m k := by
          simp only [Bool.not_eq_true] at hpk
          simp [mapDelete, List.filter_cons, hpk]
        rw [hstep]; exact ih

theorem mapGet_replace (m : RoomStore) (k : String) (v : Room)
    (h : m.any (fun p => p.1 == k) = true) :
    mapGet (m.map (fun p => if p.1 == k then (k, v) else p)) k = some v := by
  induction m with
  | nil => simp at h
  | cons p m ih =>
      simp only [List.any_cons, Bool.or_eq_true] at h
      simp only [List.map_cons]
      by_cases hpk : (p.1 == k) = true
      · rw [if_pos hpk]
        simp only [mapGet]
        rw [List.find?_cons_of_pos _ (by simp)]
        rfl
      · rw [if_neg hpk]
        simp only [mapGet] at ih ⊢
        rw [List.find?_cons_of_neg _ (by simpa using hpk)]
        exact ih (h.resolve_left hpk)

theorem mapGet_append_single (m : RoomStore) (k : String) (v : Room)
    (h : m.any (fun p => p.1 == k) = false) :
    mapGet (m ++ [(k, v)]) k = some v := by
  induction m with
  | nil =>
      simp only [List.nil_append, mapGet]
      rw [List.find?_cons_of_pos _ (by simp)]
      rfl
  | cons p m ih =>
      simp only [List.any_cons, Bool.or_eq_false_iff] at h
      simp only [List.cons_append, mapGet]
      rw [List.find?_cons_of_neg _ (by simp [h.1])]
      exact ih (by simp [h.2])

theorem mapGet_mapSet_self (m : RoomStore) (k : String) (v : Room) :
    mapGet (mapSet m k v) k = some v := by
  unfold mapSet
  by_cases hany : m.any (fun p => p.1 == k) = true
  · rw [if_pos hany]
    exact mapGet_replace m k v hany
  · rw [if_neg hany]
    simp only [Bool.not_eq_true] at hany
    exact mapGet_append_single m k v hany

theorem mem_mapValues_mapSet (m : RoomStore) (k : String) (v : Room) :
    v ∈ mapValues (mapSet m k v) := by
  unfold mapSet
  by_cases hany : m.any (fun p => p.1 == k) = true
  · rw [if_pos hany]
    obtain ⟨p, hp, hpk⟩ := List.any_eq_true.mp hany
    unfold mapValues
    rw [List.map_map]
    refine List.mem_map.mpr ⟨p, hp, ?_⟩
    have hk : p.1 = k := by simpa using hpk
    simp [hk]
  · rw [if_neg hany]
    unfold mapValues
    simp

theorem mem_listRooms_iff (store : RoomStore) (orgId : String) (r : Room) :
    r ∈ listRooms store orgId ↔
      r ∈ mapValues store ∧ r.organization = orgId ∧ r.live = true := by
  unfold listRooms
  rw [List.mem_filter]
  simp [Bool.and_eq_true]

theorem mapGet_mem_mapValues (store : RoomStore) (k : String) (r : Room)
    (h : mapGet store k = some r) : r ∈ mapValues store := by
  unfold mapGet at h
  obtain ⟨p, hfind, rfl⟩ := Option.map_eq_some'.mp h
  exact List.mem_map.mpr ⟨p, List.mem_of_find?_eq_some hfind, rfl⟩

/-! ## Claim theorems -/

/-- C1: for every valid input — positive `appId`, non-empty `userId`,
32-byte `serverSecret`, positive `lifetimeSeconds` (with the expiry
representable in a signed 64-bit integer, which Node's `writeBigInt64BE`
requires, and the cipher made of bytes) — `generateToken04` returns a
string starting with the two characters "04" whose base64-decoded envelope
is exactly `[int64 expiresAt BE][uint16 ivLen BE][iv][uint16 cipherLen BE][cipher]`,
has length `8 + 2 + len(iv) + 2 + len(cipher)`, and whose first 8 bytes,
read as a big-endian signed 64-bit integer, equal
`createdAt + lifetimeSeconds`. -/
theorem token04_wire_format (enc : String → String → String → List Nat)
    (nowSeconds : Int) (nonceRand : ℚ) (ivRand : Nat → Fin 36)
    (appId : Int) (userId serverSecret : String) (life : Int) (payload : String)
    (hApp : 0 < appId) (hUser : userId ≠ "") (hSecret : serverSecret.length = 32)
    (hLife : 0 < life) (hNow : 0 ≤ nowSeconds)
    (hRange : nowSeconds + life < 9223372036854775808)
    (hEnc : ∀ p k i, ∀ b ∈ enc p k i, b < 256) :
    ∃ tok,
      generateToken04 enc nowSeconds nonceRand ivRand appId userId serverSecret
          life payload = .ok tok ∧
      tok.toList.take 2 = ['0', '4'] ∧
      base64Decode (tokenBody tok) =
        packEnvelope (nowSeconds + life) (utf8Bytes (makeRandomIv ivRand))
          (enc (serializeTokenInfo
            { app_id := appId, user_id := userId, nonce := makeNonce nonceRand,
              ctime := nowSeconds, expire := nowSeconds + life, payload := payload })
            serverSecret (makeRandomIv ivRand)) ∧
      (base64Decode (tokenBody tok)).length =
        8 + 2 + (utf8Bytes (makeRandomIv ivRand)).length + 2 +
          (enc (serializeTokenInfo
            { app_id := appId, user_id := userId, nonce := makeNonce nonceRand,
              ctime := nowSeconds, expire := nowSeconds + life, payload := payload })
            serverSecret (makeRandomIv ivRand)).length ∧
      readInt64BE (base64Decode (tokenBody tok)) = nowSeconds + life := by
  have hok := generateToken04_ok enc nowSeconds nonceRand ivRand appId userId
    serverSecret life payload (by omega) hUser hSecret
  have hdec :
      base64Decode (tokenBody ("04" ++ base64Encode (packEnvelope (nowSeconds + life)
        (utf8Bytes (makeRandomIv ivRand))
        (enc (serializeTokenInfo
          { app_id := appId, user_id := userId, nonce := makeNonce nonceRand,
            ctime := nowSeconds, expire := nowSeconds + life, payload := payload })
          serverSecret (makeRandomIv ivRand))))) =
      packEnvelope (nowSeconds + life) (utf8Bytes (makeRandomIv ivRand))
        (enc (serializeTokenInfo
          { app_id := appId, user_id := userId, nonce := makeNonce nonceRand,
            ctime := nowSeconds, expire := nowSeconds + life, payload := payload })
          serverSecret (makeRandomIv ivRand)) := by
    rw [tokenBody_append04]
    exact base64_roundtrip _
      (packEnvelope_lt _ _ _ (utf8Bytes_makeRandomIv_lt ivRand) (hEnc _ _ _))
  refine ⟨_, hok, rfl, hdec, ?_, ?_⟩
  · rw [hdec, packEnvelope_length]
  · rw [hdec]
    exact readInt64BE_packEnvelope _ _ _ (by omega) hRange

/-- Witness: the wire-format theorem applied at a fully concrete call. -/
theorem token04_wire_format_witness :
    ∃ tok,
      generateToken04 (fun _ _ _ => [65, 66]) 1700000000 0 (fun _ => 0) 1 "u"
        "wxyzabcdefghijklmnopqrstuvwxyz12" 3600 "" = .ok tok ∧
      tok.toList.take 2 = ['0', '4'] ∧
      readInt64BE (base64Decode (tokenBody tok)) = 1700000000 + 3600 := by
  obtain ⟨tok, h1, h2, _, _, h5⟩ :=
    token04_wire_format (fun _ _ _ => [65, 66]) 1700000000 0 (fun _ => 0) 1 "u"
      "wxyzabcdefghijklmnopqrstuvwxyz12" 3600 ""
      (by norm_num) (by decide) (by decide) (by norm_num) (by norm_num) (by norm_num)
      (by intro p k i b hb; simp at hb; omega)
  exact ⟨tok, h1, h2, h5⟩

/-- C2 counterexample: `effectiveTimeInSeconds = -1` violates the claimed
precondition "lifetimeSeconds is a positive integer", yet the call does not
fail with any error — `generateToken04` contains no check of the lifetime
argument and happily returns a token. -/
theorem token04_accepts_nonpositive_lifetime :
    ¬(0 < (-1 : Int)) ∧
    (generateToken04 (fun _ _ _ => [65, 66]) 1700000000 0 (fun _ => 0) 1 "u"
      "wxyzabcdefghijklmnopqrstuvwxyz12" (-1) "").isOk = true := by
  exact ⟨by decide, by decide⟩

/-- C2 (amended): the three guards that exist fire in source order and name
the offending field — falsy (zero) `appId`, empty `userId`, or a
`serverSecret` whose length differs from 32 — with the fixed error value
returned before any use of the encryption primitive (the theorem holds for
every `enc`, so no encryption influences the outcome, and no token is
returned).  But validation is weaker than the spec claims: `appId` is only
checked for truthiness (negative or fractional values pass), and
`effectiveTimeInSeconds` is never checked — whenever the three real guards
pass, the call returns a token even for non-positive lifetimes. -/
theorem token04_validation (enc : String → String → String → List Nat)
    (nowSeconds : Int) (nonceRand : ℚ) (ivRand : Nat → Fin 36)
    (appId : Int) (userId serverSecret : String) (life : Int) (payload : String) :
    (appId = 0 →
      generateToken04 enc nowSeconds nonceRand ivRand appId userId serverSecret
        life payload = .error "appId must be a number") ∧
    (appId ≠ 0 → userId = "" →
      generateToken04 enc nowSeconds nonceRand ivRand appId userId serverSecret
        life payload = .error "userId must be a string") ∧
    (appId ≠ 0 → userId ≠ "" → serverSecret.length ≠ 32 →
      generateToken04 enc nowSeconds nonceRand ivRand appId userId serverSecret
        life payload = .error "serverSecret must be 32 chars") ∧
    (appId ≠ 0 → userId ≠ "" → serverSecret.length = 32 →
      (generateToken04 enc nowSeconds nonceRand ivRand appId userId serverSecret
        life payload).isOk = true) := by
  refine ⟨?_, ?_, ?_, ?_⟩
  · intro h
    unfold generateToken04
    rw [if_pos h]
  · intro h1 h2
    unfold generateToken04
    rw [if_neg h1, if_pos h2]
  · intro h1 h2 h3
    unfold generateToken04
    rw [if_neg h1, if_neg h2, if_pos h3]
  · intro h1 h2 h3
    rw [generateToken04_ok enc nowSeconds nonceRand ivRand appId userId serverSecret
      life payload h1 h2 h3]
    rfl

/-- Witness: the validation theorem applied at a concrete call with
`appId = 0`. -/
theorem token04_validation_witness :
    generateToken04 (fun _ _ _ => []) 0 0 (fun _ => 0) 0 "u" "s" 60 "" =
      .error "appId must be a number" :=
  (token04_validation (fun _ _ _ => []) 0 0 (fun _ => 0) 0 "u" "s" 60 "").1 rfl

theorem makeNonce_nonneg (r : ℚ) (hr0 : 0 ≤ r) : 0 ≤ makeNonce r := by
  unfold makeNonce
  have he : ((-2147483648 : ℚ) + 4294967295) = 2147483647 := by norm_num
  rw [he]
  exact Int.ceil_nonneg (mul_nonneg (by norm_num) hr0)

/-- C5 counterexample: the claim says every value of the signed 32-bit
range, in particular `-2147483648`, is a possible nonce; but
`(-2147483648 + 4294967295)` evaluates to the scalar `2147483647`, so the
drawn nonce `⌈2147483647 · r⌉` is never negative for any
`Math.random()` outcome `r ∈ [0, 1)`. -/
theorem makeNonce_min_unreachable :
    ¬ ∃ r : ℚ, 0 ≤ r ∧ r < 1 ∧ makeNonce r = -2147483648 := by
  rintro ⟨r, hr0, -, heq⟩
  have hpos := makeNonce_nonneg r hr0
  omega

/-- C5 (amended): the nonce is drawn from the non-negative half of the
32-bit range only — for every `Math.random()` outcome `r ∈ [0, 1)` the
nonce lies in `[0, 2147483647]`, and every value of that interval is a
possible outcome. -/
theorem makeNonce_range (r : ℚ) (hr0 : 0 ≤ r) (hr1 : r < 1) :
    (0 ≤ makeNonce r ∧ makeNonce r ≤ 2147483647) ∧
    (∀ v : Int, 0 ≤ v → v ≤ 2147483647 →
      ∃ q : ℚ, 0 ≤ q ∧ q < 1 ∧ makeNonce q = v) := by
  have he : ((-2147483648 : ℚ) + 4294967295) = 2147483647 := by norm_num
  constructor
  · refine ⟨makeNonce_nonneg r hr0, ?_⟩
    unfold makeNonce
    rw [he, Int.ceil_le]
    push_cast
    nlinarith
  · intro v hv0 hv1
    by_cases h0 : v = 0
    · refine ⟨0, le_refl 0, by norm_num, ?_⟩
      subst h0
      unfold makeNonce
      rw [he, mul_zero, Int.ceil_zero]
    · have hv1' : (1 : Int) ≤ v := by omega
      refine ⟨(2 * (v : ℚ) - 1) / 4294967294, ?_, ?_, ?_⟩
      · apply div_nonneg _ (by norm_num)
        have : (1 : ℚ) ≤ (v : ℚ) := by exact_mod_cast hv1'
        linarith
      · rw [div_lt_one (by norm_num)]
        have : (v : ℚ) ≤ 2147483647 := by exact_mod_cast hv1
        linarith
      · unfold makeNonce
        rw [he]
        have heq : (2147483647 : ℚ) * ((2 * (v : ℚ) - 1) / 4294967294) =
            (v : ℚ) - 1 / 2 := by
          field_simp
          ring
        rw [heq, Int.ceil_eq_iff]
        constructor
        · linarith
        · linarith

/-- Witness: the nonce-range theorem applied at `r = 1/2`. -/
theorem makeNonce_range_witness :
    0 ≤ makeNonce (1 / 2) ∧ makeNonce (1 / 2) ≤ 2147483647 :=
  (makeNonce_range (1 / 2) (by norm_num) (by norm_num)).1

/-- C3: if no live session has the id, close answers NotFound (404) and
leaves the store untouched; if the requester is not the host it answers
Forbidden (403), the store is unchanged, the session is still present and —
when live — still listable for its organization; if the requester is the
host the session is removed at once and a second close of the same id
answers NotFound, whoever asks. -/
theorem closeRoom_spec (store : RoomStore) (roomId requesterId : String) :
    (mapGet store roomId = none →
      closeRoomHandler store roomId requesterId =
        (.notFound "Room not found", store)) ∧
    (∀ room, mapGet store roomId = some room → room.hostId ≠ requesterId →
      closeRoomHandler store roomId requesterId =
        (.forbidden "Only the host can close the room", store) ∧
      mapGet (closeRoomHandler store roomId requesterId).2 roomId = some room ∧
      (room.live = true →
        room ∈ listRooms (closeRoomHandler store roomId requesterId).2
          room.organization)) ∧
    (∀ room, mapGet store roomId = some room → room.hostId = requesterId →
      closeRoomHandler store roomId requesterId =
        (.closed "Room closed", mapDelete store roomId) ∧
      mapGet (closeRoomHandler store roomId requesterId).2 roomId = none ∧
      ∀ requesterId2,
        closeRoomHandler (closeRoomHandler store roomId requesterId).2 roomId
          requesterId2 =
        (.notFound "Room not found", (closeRoomHandler store roomId requesterId).2)) := by
  refine ⟨?_, ?_, ?_⟩
  · intro h
    unfold closeRoomHandler
    rw [h]
  · intro room h hne
    have hstep : closeRoomHandler store roomId requesterId =
        (.forbidden "Only the host can close the room", store) := by
      unfold closeRoomHandler
      rw [h]
      dsimp only
      rw [if_pos hne]
    refine ⟨hstep, ?_, ?_⟩
    · rw [hstep]
      exact h
    · intro hlive
      rw [hstep]
      exact (mem_listRooms_iff store room.organization room).mpr
        ⟨mapGet_mem_mapValues store roomId room h, rfl, hlive⟩
  · intro room h heq
    have hstep : closeRoomHandler store roomId requesterId =
        (.closed "Room closed", mapDelete store roomId) := by
      unfold closeRoomHandler
      rw [h]
      dsimp only
      rw [if_neg (by simp [heq])]
    refine ⟨hstep, ?_, ?_⟩
    · rw [hstep]
      exact mapGet_mapDelete_self store roomId
    · intro requesterId2
      rw [hstep]
      unfold closeRoomHandler
      rw [mapGet_mapDelete_self store roomId]

/-- Witness: the close theorem applied at a one-room store, closed by its
host. -/
theorem closeRoom_spec_witness :
    closeRoomHandler [("r1", sampleRoom)] "r1" "h1" =
      (.closed "Room closed", mapDelete [("r1", sampleRoom)] "r1") :=
  ((closeRoom_spec [("r1", sampleRoom)] "r1" "h1").2.2 sampleRoom rfl rfl).1

theorem createRoomHandler_ok (store : RoomStore) (user : User)
    (title roomType : Option String) (nowMs : Int) (randSuffix : String)
    (hPlan : (user.plan == some "free" || strFalsy user.plan) = false)
    (hTitle : strFalsy title = false) :
    createRoomHandler store user title roomType nowMs randSuffix =
      (.created
        { id := "room_" ++ toString nowMs ++ "_" ++ randSuffix,
          title := title.getD "", type := roomType.getD "audio",
          hostId := user._id, hostName := user.name,
          organization := user.organization, participants := 0,
          createdAt := nowMs, live := true },
       mapSet store ("room_" ++ toString nowMs ++ "_" ++ randSuffix)
        { id := "room_" ++ toString nowMs ++ "_" ++ randSuffix,
          title := title.getD "", type := roomType.getD "audio",
          hostId := user._id, hostName := user.name,
          organization := user.organization, participants := 0,
          createdAt := nowMs, live := true }) := by
  unfold createRoomHandler
  rw [if_neg (by simp [hPlan]), if_neg (by simp [hTitle])]

/-- C7: a room is listed for an organization exactly when it is one of the
store's values, belongs to that organization and is live; consequently a
just-created room is in the creator organization's listing and in no other
organization's listing. -/
theorem listRooms_spec (store : RoomStore) (orgId : String) (user : User)
    (title roomType : Option String) (nowMs : Int) (randSuffix : String)
    (hPlan : (user.plan == some "free" || strFalsy user.plan) = false)
    (hTitle : strFalsy title = false) :
    (∀ r : Room, r ∈ listRooms store orgId ↔
      r ∈ mapValues store ∧ r.organization = orgId ∧ r.live = true) ∧
    (∃ room,
      (createRoomHandler store user title roomType nowMs randSuffix).1 =
        .created room ∧
      room ∈ listRooms (createRoomHandler store user title roomType nowMs
        randSuffix).2 user.organization ∧
      ∀ orgId2, orgId2 ≠ user.organization →
        room ∉ listRooms (createRoomHandler store user title roomType nowMs
          randSuffix).2 orgId2) := by
  refine ⟨fun r => mem_listRooms_iff store orgId r, ?_⟩
  have hstep := createRoomHandler_ok store user title roomType nowMs randSuffix
    hPlan hTitle
  refine ⟨_, by rw [hstep], ?_, ?_⟩
  · rw [hstep]
    exact (mem_listRooms_iff _ _ _).mpr ⟨mem_mapValues_mapSet _ _ _, rfl, rfl⟩
  · intro orgId2 horg hmem
    rw [hstep] at hmem
    have h2 := ((mem_listRooms_iff _ _ _).mp hmem).2.1
    exact horg h2.symm

/-- Witness: create-then-list at a concrete empty store. -/
theorem listRooms_spec_witness :
    ∃ room,
      (createRoomHandler [] sampleUser (some "Sprint Retro") (some "audio")
        0 "abcde").1 = .created room ∧
      room ∈ listRooms (createRoomHandler [] sampleUser (some "Sprint Retro")
        (some "audio") 0 "abcde").2 "o1" := by
  obtain ⟨room, h1, h2, -⟩ :=
    (listRooms_spec [] "o1" sampleUser (some "Sprint Retro") (some "audio")
      0 "abcde" (by decide) (by decide)).2
  exact ⟨room, h1, h2⟩

/-- C10: create-session stores any supplied kind string verbatim — there is
no validation against a closed set of kinds — and substitutes "audio" only
when the kind is absent from the request body. -/
theorem createRoom_kind_unvalidated (store : RoomStore) (user : User)
    (title : Option String) (nowMs : Int) (randSuffix : String)
    (hPlan : (user.plan == some "free" || strFalsy user.plan) = false)
    (hTitle : strFalsy title = false) :
    (∀ kind : String, ∃ room,
      (createRoomHandler store user title (some kind) nowMs randSuffix).1 =
        .created room ∧
      room.type = kind ∧
      mapGet (createRoomHandler store user title (some kind) nowMs randSuffix).2
        room.id = some room) ∧
    (∃ room,
      (createRoomHandler store user title none nowMs randSuffix).1 =
        .created room ∧
      room.type = "audio" ∧
      mapGet (createRoomHandler store user title none nowMs randSuffix).2
        room.id = some room) := by
  constructor
  · intro kind
    have hstep := createRoomHandler_ok store user title (some kind) nowMs
      randSuffix hPlan hTitle
    refine ⟨_, by rw [hstep], rfl, ?_⟩
    rw [hstep]
    exact mapGet_mapSet_self _ _ _
  · have hstep := createRoomHandler_ok store user title none nowMs randSuffix
      hPlan hTitle
    refine ⟨_, by rw [hstep], rfl, ?_⟩
    rw [hstep]
    exact mapGet_mapSet_self _ _ _

/-- Witness: an arbitrary kind string is stored verbatim. -/
theorem createRoom_kind_unvalidated_witness :
    ∃ room,
      (createRoomHandler [] sampleUser (some "t") (some "weird-kind") 0
        "abcde").1 = .created room ∧
      room.type = "weird-kind" := by
  obtain ⟨room, h1, h2, -⟩ :=
    (createRoom_kind_unvalidated [] sampleUser (some "t") 0 "abcde"
      (by decide) (by decide)).1 "weird-kind"
  exact ⟨room, h1, h2⟩

/-- C4: the entitlement gate fires first — a caller on the free plan (or
with no plan at all) is denied with the premium error whatever the session
id argument is, even an absent one; an entitled caller who supplies a
session id while the signing configuration is unset receives a successful
response carrying the placeholder token "ZEGO_NOT_CONFIGURED" and
`demo = true` instead of an error. -/
theorem tokenHandler_entitlement_demo (enc : String → String → String → List Nat)
    (nowSeconds : Int) (nonceRand : ℚ) (ivRand : Nat → Fin 36)
    (store : RoomStore) (cfg : ZegoConfig) (user : User)
    (roomIdParam : Option String) :
    ((user.plan == some "free" || strFalsy user.plan) = true →
      tokenHandler enc nowSeconds nonceRand ivRand store cfg user roomIdParam =
        .forbidden "premium_required" "Live Rooms require a Pro subscription.") ∧
    ((user.plan == some "free" || strFalsy user.plan) = false →
      strFalsy roomIdParam = false →
      (intFalsy cfg.appId || strFalsy cfg.serverSecret) = true →
      tokenHandler enc nowSeconds nonceRand ivRand store cfg user roomIdParam =
        .ok { token := "ZEGO_NOT_CONFIGURED", userId := user._id,
              userName := user.name, roomId := roomIdParam.getD "",
              appId := 0, isHost := none, demo := some true }) := by
  constructor
  · intro h
    unfold tokenHandler
    rw [if_pos h]
  · intro h1 h2 h3
    unfold tokenHandler
    rw [if_neg (by simp [h1]), if_neg (by simp [h2])]
    dsimp only
    rw [if_pos h3]

/-- Witness: denial for a plan-less caller with absent session id, and the
demo response for an entitled caller with unset configuration. -/
theorem tokenHandler_entitlement_demo_witness :
    tokenHandler (fun _ _ _ => []) 0 0 (fun _ => 0) [] ⟨none, none⟩
      { _id := "u2", name := "M", organization := "o1", plan := none } none =
      .forbidden "premium_required" "Live Rooms require a Pro subscription." ∧
    tokenHandler (fun _ _ _ => []) 0 0 (fun _ => 0) [] ⟨none, none⟩ sampleUser
      (some "r9") =
      .ok { token := "ZEGO_NOT_CONFIGURED", userId := "u1", userName := "N",
            roomId := "r9", appId := 0, isHost := none, demo := some true } :=
  ⟨(tokenHandler_entitlement_demo (fun _ _ _ => []) 0 0 (fun _ => 0) []
      ⟨none, none⟩
      { _id := "u2", name := "M", organization := "o1", plan := none } none).1
    rfl,
   (tokenHandler_entitlement_demo (fun _ _ _ => []) 0 0 (fun _ => 0) []
      ⟨none, none⟩ sampleUser (some "r9")).2 rfl rfl rfl⟩

/-- C6: on the configured path the token is minted with the fixed lifetime
of 3600 seconds, and the response's `isHost` field is true exactly when the
store holds a session under the given id whose host identity equals the
caller's id — in particular false when the id is unknown to the store. -/
theorem tokenHandler_configured (enc : String → String → String → List Nat)
    (nowSeconds : Int) (nonceRand : ℚ) (ivRand : Nat → Fin 36)
    (store : RoomStore) (cfg : ZegoConfig) (user : User)
    (rid : String) (a : Int) (s : String)
    (hPlan : (user.plan == some "free" || strFalsy user.plan) = false)
    (hRid : rid ≠ "")
    (hA : cfg.appId = some a) (hA0 : a ≠ 0)
    (hS : cfg.serverSecret = some s) (hSlen : s.length = 32)
    (hUid : user._id ≠ "") :
    (∃ tok,
      generateToken04 enc nowSeconds nonceRand ivRand a user._id s 3600 "" =
        .ok tok ∧
      tokenHandler enc nowSeconds nonceRand ivRand store cfg user (some rid) =
        .ok { token := tok, userId := user._id, userName := user.name,
              roomId := rid, appId := a,
              isHost := some (isHostCheck store rid user._id), demo := none }) ∧
    (isHostCheck store rid user._id = true ↔
      ∃ room, mapGet store rid = some room ∧ room.hostId = user._id) ∧
    (mapGet store rid = none → isHostCheck store rid user._id = false) := by
  have hS0 : s ≠ "" := by
    intro h
    rw [h] at hSlen
    simp at hSlen
  have hok := generateToken04_ok enc nowSeconds nonceRand ivRand a user._id s
    3600 "" hA0 hUid hSlen
  refine ⟨⟨_, hok, ?_⟩, ?_, ?_⟩
  · unfold tokenHandler
    rw [if_neg (by simp [hPlan]), if_neg (by simp [strFalsy, hRid])]
    dsimp only
    rw [hA, hS]
    rw [if_neg (by simp [intFalsy, strFalsy, hA0, hS0])]
    simp only [Option.getD_some]
    rw [hok]
  · unfold isHostCheck
    cases hm : mapGet store rid with
    | none => simp
    | some room => simp
  · intro hm
    unfold isHostCheck
    rw [hm]

/-- Witness: the configured-path theorem at an empty store (so the caller
is not the host). -/
theorem tokenHandler_configured_witness :
    ∃ tok,
      generateToken04 (fun _ _ _ => [65]) 0 0 (fun _ => 0) 7 "u1"
        "wxyzabcdefghijklmnopqrstuvwxyz12" 3600 "" = .ok tok ∧
      tokenHandler (fun _ _ _ => [65]) 0 0 (fun _ => 0) []
        ⟨some 7, some "wxyzabcdefghijklmnopqrstuvwxyz12"⟩ sampleUser
        (some "r9") =
        .ok { token := tok, userId := "u1", userName := "N", roomId := "r9",
              appId := 7, isHost := some (isHostCheck [] "r9" "u1"),
              demo := none } :=
  (tokenHandler_configured (fun _ _ _ => [65]) 0 0 (fun _ => 0) []
    ⟨some 7, some "wxyzabcdefghijklmnopqrstuvwxyz12"⟩ sampleUser "r9" 7
    "wxyzabcdefghijklmnopqrstuvwxyz12" (by decide) (by decide) rfl (by decide)
    rfl (by decide) (by decide)).1

/-- C9: every IV is a fresh 16-character string over the source's
36-character alphabet (each of whose characters is a decimal digit or a
lowercase letter, i.e. `[0-9a-z]`), and the very same IV is both embedded
cleartext in the envelope and passed as the IV argument to the CBC
encryption primitive. -/
theorem iv_spec (enc : String → String → String → List Nat)
    (nowSeconds : Int) (nonceRand : ℚ) (ivRand : Nat → Fin 36)
    (appId : Int) (userId serverSecret : String) (life : Int) (payload : String)
    (hApp : appId ≠ 0) (hUser : userId ≠ "") (hSecret : serverSecret.length = 32) :
    (makeRandomIv ivRand).toList.length = 16 ∧
    (∀ c ∈ (makeRandomIv ivRand).toList, c ∈ ivAlphabet) ∧
    (∀ c ∈ ivAlphabet, ('0' ≤ c ∧ c ≤ '9') ∨ ('a' ≤ c ∧ c ≤ 'z')) ∧
    generateToken04 enc nowSeconds nonceRand ivRand appId userId serverSecret
        life payload =
      .ok ("04" ++ base64Encode (packEnvelope (nowSeconds + life)
        (utf8Bytes (makeRandomIv ivRand))
        (enc (serializeTokenInfo
          { app_id := appId, user_id := userId, nonce := makeNonce nonceRand,
            ctime := nowSeconds, expire := nowSeconds + life,
            payload := payload })
          serverSecret (makeRandomIv ivRand)))) :=
  ⟨makeRandomIv_length ivRand, makeRandomIv_mem ivRand, by decide,
   generateToken04_ok enc nowSeconds nonceRand ivRand appId userId serverSecret
     life payload hApp hUser hSecret⟩

/-- Witness: IV length and alphabet at a concrete draw. -/
theorem iv_spec_witness :
    (makeRandomIv (fun _ => 0)).toList.length = 16 ∧
    ∀ c ∈ (makeRandomIv (fun _ => 0)).toList, c ∈ ivAlphabet := by
  have h := iv_spec (fun _ _ _ => []) 0 0 (fun _ => 0) 1 "u"
    "wxyzabcdefghijklmnopqrstuvwxyz12" 60 "" (by decide) (by decide) (by decide)
  exact ⟨h.1, h.2.1⟩

/-- C8: the claims are serialized with the fields in exactly the source
insertion order app_id, user_id, nonce, ctime, expire, payload (the spec's
appId, userId, nonce, createdAt, expiresAt, payload — `JSON.stringify`
preserves object-literal insertion order), and that serialized text is
precisely the plaintext handed to the encryption primitive whose output
becomes the envelope's cipher section; concretely, the serialization of the
claims `⟨1, "u", 5, 10, 20, ""⟩` is the canonical JSON text with the six
fields in that order. -/
theorem serialization_order (enc : String → String → String → List Nat)
    (nowSeconds : Int) (nonceRand : ℚ) (ivRand : Nat → Fin 36)
    (appId : Int) (userId serverSecret : String) (life : Int) (payload : String)
    (hApp : appId ≠ 0) (hUser : userId ≠ "") (hSecret : serverSecret.length = 32) :
    generateToken04 enc nowSeconds nonceRand ivRand appId userId serverSecret
        life payload =
      .ok ("04" ++ base64Encode (packEnvelope (nowSeconds + life)
        (utf8Bytes (makeRandomIv ivRand))
        (enc (serializeTokenInfo
          { app_id := appId, user_id := userId, nonce := makeNonce nonceRand,
            ctime := nowSeconds, expire := nowSeconds + life,
            payload := payload })
          serverSecret (makeRandomIv ivRand)))) ∧
    serializeTokenInfo
        { app_id := 1, user_id := "u", nonce := 5, ctime := 10, expire := 20,
          payload := "" } =
      "\x7b\"app_id\":1,\"user_id\":\"u\",\"nonce\":5,\"ctime\":10,\"expire\":20,\"payload\":\"\"\x7d" :=
  ⟨generateToken04_ok enc nowSeconds nonceRand ivRand appId userId serverSecret
    life payload hApp hUser hSecret, by rfl⟩

/-- Witness: the serialization theorem at a concrete call. -/
theorem serialization_order_witness :
    serializeTokenInfo
        { app_id := 1, user_id := "u", nonce := 5, ctime := 10, expire := 20,
          payload := "" } =
      "\x7b\"app_id\":1,\"user_id\":\"u\",\"nonce\":5,\"ctime\":10,\"expire\":20,\"payload\":\"\"\x7d" :=
  (serialization_order (fun _ _ _ => []) 0 0 (fun _ => 0) 1 "u"
    "wxyzabcdefghijklmnopqrstuvwxyz12" 60 "" (by decide) (by decide)
    (by decide)).2
